import Mathlib

/-!
# Verification of `solid-dropzone` (`src/src/index.tsx`)

A shallow embedding of the file-selection state machine and validation
pipeline of the `useDropzone` hook, together with proofs about the
frozen behavioural claims.  Pure functions of the source are translated
into Lean functions; the stateful event handlers become explicit state
transitions on record types.  The injected helpers `fileAccepted` and
`fileMatchSize` live in `src/utils`, which is not part of the provided
sources, so they are modelled from the specification (marked as such);
everything else is translated directly from `index.tsx`.
-/

namespace SolidDropzone

/-- A file error `{ code, message }` (data model of the spec / `types.ts`). -/
structure FileError where
  code : String
  message : String
deriving DecidableEq, Repr

/-- A file candidate: name, byte size and MIME type string. -/
structure FileData where
  name : String
  size : Nat
  type : String
deriving DecidableEq, Repr

/-- A file rejection `{ file, errors }`. -/
structure FileRejection where
  file : FileData
  errors : List FileError
deriving DecidableEq, Repr

/-- A non-null result of the user-supplied validator on one file: a single
error or an array of errors.  The validator itself returns
`Option ValidatorResult`, whose `none` is `validator(file)` returning
`null` for that file. -/
inductive ValidatorResult where
  | one : FileError → ValidatorResult
  | many : List FileError → ValidatorResult
deriving DecidableEq, Repr

/-- Normalisation performed in `setFiles`:
`Array.isArray(customErrors) ? customErrors : [customErrors]`. -/
def ValidatorResult.toList : ValidatorResult → List FileError
  | .one e => [e]
  | .many es => es

/-- `local.validator ? local.validator(file) : null` (`index.tsx` line
338): the per-file validator result; the validator may be absent, and a
supplied validator may itself return `null` for a file. -/
def runValidator (validator : Option (FileData → Option ValidatorResult))
    (f : FileData) : Option ValidatorResult :=
  match validator with
  | some vf => vf f
  | none => none

/-- The configuration options of `useDropzone` relevant to the filtering
pipeline.  `maxSize = none` models the default `Infinity`. -/
structure Config where
  multiple : Bool
  maxFiles : Nat
  minSize : Nat
  maxSize : Option Nat
deriving DecidableEq, Repr

/-- `TOO_MANY_FILES_REJECTION` from `src/utils`, the single error attached
by the multiplicity guard. -/
def TOO_MANY_FILES_REJECTION : FileError :=
  { code := "too-many-files", message := "Too many files" }

/-- Modelled from the spec: `fileAccepted` lives in `src/utils`, which is
not among the provided sources.  Per the spec it is an injected pure
function `fileAccepted(file, acceptAttr) -> [boolean, FileError|null]`
that accepts iff the file's type matches the accept filter and otherwise
produces a `file-invalid-type` error.  The MIME/extension matching
algorithm itself is out of scope and abstracted as a predicate. -/
def fileAccepted (typeMatch : FileData → Bool) (f : FileData) :
    Bool × Option FileError :=
  if typeMatch f then (true, none)
  else (false, some { code := "file-invalid-type"
                      message := "File type is not accepted" })

/-- Modelled from the spec: `fileMatchSize` lives in `src/utils`, which is
not among the provided sources.  Per the spec it is an injected pure
function checking `minSize <= size <= maxSize` (inclusive bounds,
`maxSize = none` meaning unbounded) and reporting `file-too-large` /
`file-too-small` errors. -/
def fileMatchSize (f : FileData) (minSize : Nat) (maxSize : Option Nat) :
    Bool × Option FileError :=
  match maxSize with
  | some m =>
    if f.size > m then
      (false, some { code := "file-too-large", message := "File is larger than the maximum size" })
    else if f.size < minSize then
      (false, some { code := "file-too-small", message := "File is smaller than the minimum size" })
    else (true, none)
  | none =>
    if f.size < minSize then
      (false, some { code := "file-too-small", message := "File is smaller than the minimum size" })
    else (true, none)

/-- The per-file evaluation of `setFiles` (`index.tsx` lines 335–351):
`none` means the file is accepted, `some errs` means it is rejected with
error list `errs`.  The file is accepted iff
`accepted && sizeMatch && !customErrors`; note that in the source
`customErrors` is compared by JavaScript truthiness, so an *empty array*
returned by the validator still counts as a rejection. -/
def evalFile (cfg : Config) (typeMatch : FileData → Bool)
    (validator : Option (FileData → Option ValidatorResult)) (f : FileData) :
    Option (List FileError) :=
  let a := fileAccepted typeMatch f
  let s := fileMatchSize f cfg.minSize cfg.maxSize
  let customErrors : Option ValidatorResult := runValidator validator f
  if a.1 && s.1 && customErrors.isNone then none
  else some (([a.2, s.2].filterMap id) ++
             (match customErrors with
              | none => []
              | some r => r.toList))

/-- The per-file loop of `setFiles` (`files.forEach(...)`): partitions the
input into `newAcceptedFiles` and `newFileRejections`, preserving input
order in both lists. -/
def partitionFiles (cfg : Config) (typeMatch : FileData → Bool)
    (validator : Option (FileData → Option ValidatorResult)) :
    List FileData → List FileData × List FileRejection
  | [] => ([], [])
  | f :: fs =>
    let rest := partitionFiles cfg typeMatch validator fs
    match evalFile cfg typeMatch validator f with
    | none => (f :: rest.1, rest.2)
    | some errs => (rest.1, { file := f, errors := errs } :: rest.2)

/-- The multiplicity guard of `setFiles` (`index.tsx` lines 353–361):
if `(!multiple && accepted.length > 1) ||
(multiple && maxFiles >= 1 && accepted.length > maxFiles)`, every
accepted file is pushed to the rejections with the single
`TOO_MANY_FILES_REJECTION` error and the accepted list is cleared. -/
def applyMultiplicityGuard (cfg : Config)
    (r : List FileData × List FileRejection) :
    List FileData × List FileRejection :=
  if (!cfg.multiple && r.1.length > 1) ||
     (cfg.multiple && decide (cfg.maxFiles ≥ 1) && decide (r.1.length > cfg.maxFiles)) then
    ([], r.2 ++ r.1.map (fun f => { file := f, errors := [TOO_MANY_FILES_REJECTION] }))
  else r

/-- The pure part of `setFiles`: per-file evaluation followed by the
multiplicity guard, yielding the final `(accepted, rejected)` pair. -/
def setFilesPure (cfg : Config) (typeMatch : FileData → Bool)
    (validator : Option (FileData → Option ValidatorResult))
    (files : List FileData) : List FileData × List FileRejection :=
  applyMultiplicityGuard cfg (partitionFiles cfg typeMatch validator files)

/-- Default configuration values of `defaultProps` (`index.tsx` lines 28–42):
`multiple = true`, `maxFiles = 0`, `minSize = 0`, `maxSize = Infinity`. -/
def defaultConfig : Config :=
  { multiple := true, maxFiles := 0, minSize := 0, maxSize := none }

/-- A concrete sample file for closed-instance checks. -/
def fileA : FileData := { name := "a.txt", size := 100, type := "text/plain" }

/-- A second concrete sample file for closed-instance checks. -/
def fileB : FileData := { name := "b.txt", size := 200, type := "text/plain" }

/-- The boolean condition of the multiplicity guard, as a proposition. -/
lemma multiplicityGuard_cond_iff (cfg : Config)
    (r : List FileData × List FileRejection) :
    ((!cfg.multiple && r.1.length > 1) ||
     (cfg.multiple && decide (cfg.maxFiles ≥ 1) &&
       decide (r.1.length > cfg.maxFiles))) = true ↔
    ((cfg.multiple = false ∧ 1 < r.1.length) ∨
     (cfg.multiple = true ∧ 1 ≤ cfg.maxFiles ∧ cfg.maxFiles < r.1.length)) := by
  cases cfg.multiple <;> simp

/-- C1.  After the per-file evaluation step, if `multiple` is false and more
than one file was accepted, or `multiple` is true, `maxFiles ≥ 1` and the
accepted count exceeds `maxFiles`, then every accepted file is moved to the
rejections with exactly one `too-many-files` error, the accepted list is
cleared, and the rejections from the per-file step are preserved unchanged
in front; consequently the final accepted count never exceeds 1 when
`multiple = false` and never exceeds `maxFiles` when `multiple = true` and
`maxFiles ≥ 1`. -/
theorem setFiles_multiplicity_guard (cfg : Config)
    (typeMatch : FileData → Bool)
    (validator : Option (FileData → Option ValidatorResult))
    (files : List FileData) :
    (((cfg.multiple = false ∧
        1 < (partitionFiles cfg typeMatch validator files).1.length) ∨
      (cfg.multiple = true ∧ 1 ≤ cfg.maxFiles ∧
        cfg.maxFiles < (partitionFiles cfg typeMatch validator files).1.length)) →
      setFilesPure cfg typeMatch validator files =
        ([], (partitionFiles cfg typeMatch validator files).2 ++
          (partitionFiles cfg typeMatch validator files).1.map
            (fun f => { file := f, errors := [TOO_MANY_FILES_REJECTION] }))) ∧
    (cfg.multiple = false →
      (setFilesPure cfg typeMatch validator files).1.length ≤ 1) ∧
    (cfg.multiple = true → 1 ≤ cfg.maxFiles →
      (setFilesPure cfg typeMatch validator files).1.length ≤ cfg.maxFiles) ∧
    TOO_MANY_FILES_REJECTION.code = "too-many-files" := by
  set p := partitionFiles cfg typeMatch validator files with hp
  refine ⟨?_, ?_, ?_, rfl⟩
  · intro h
    rw [setFilesPure, ← hp, applyMultiplicityGuard,
      if_pos ((multiplicityGuard_cond_iff cfg p).mpr h)]
  · intro hm
    rw [setFilesPure, ← hp, applyMultiplicityGuard]
    split
    · simp
    · rename_i hg
      rw [multiplicityGuard_cond_iff] at hg
      push_neg at hg
      exact hg.1 hm
  · intro hm hmax
    rw [setFilesPure, ← hp, applyMultiplicityGuard]
    split
    · simp
    · rename_i hg
      rw [multiplicityGuard_cond_iff] at hg
      push_neg at hg
      exact hg.2 hm hmax

/-- C1 witness: with `multiple = false` and two files that both pass the
per-file step, the guard fires and both files end up rejected with a single
`too-many-files` error each. -/
theorem setFiles_multiplicity_guard_witness :
    setFilesPure { multiple := false, maxFiles := 0, minSize := 0, maxSize := none }
        (fun _ => true) none [fileA, fileB] =
      ([], [{ file := fileA, errors := [TOO_MANY_FILES_REJECTION] },
            { file := fileB, errors := [TOO_MANY_FILES_REJECTION] }]) := by
  have h := (setFiles_multiplicity_guard
    { multiple := false, maxFiles := 0, minSize := 0, maxSize := none }
    (fun _ => true) none [fileA, fileB]).1 (Or.inl ⟨rfl, by decide⟩)
  exact h.trans (by decide)

/-- The property the spec requires of a validator so that rejections carry
a non-empty error list: on the given file it returns `null`, a single
error, or a *non-empty* array of errors — equivalently, it never returns
the empty array (which the source treats as truthy, causing a rejection
that contributes no error). -/
def validatorNonEmptyAt (v : Option (FileData → Option ValidatorResult))
    (f : FileData) : Prop :=
  ∀ es, runValidator v f = some (ValidatorResult.many es) → es ≠ []

/-- When the accept check fails, it supplies an error. -/
lemma fileAccepted_snd_of_fst_false (typeMatch : FileData → Bool)
    (f : FileData) (h : (fileAccepted typeMatch f).1 = false) :
    ∃ e, (fileAccepted typeMatch f).2 = some e := by
  unfold fileAccepted at *
  split at h <;> simp_all

/-- When the size check fails, it supplies an error. -/
lemma fileMatchSize_snd_of_fst_false (f : FileData) (minSize : Nat)
    (maxSize : Option Nat) (h : (fileMatchSize f minSize maxSize).1 = false) :
    ∃ e, (fileMatchSize f minSize maxSize).2 = some e := by
  unfold fileMatchSize at *
  cases maxSize <;> (dsimp at h ⊢) <;> split_ifs at h ⊢ <;> simp_all

/-- If the second entry of the error-pair list is an error, the filtered
error list is non-empty. -/
lemma filterMap_pair_ne_nil_right (a : Option FileError) (e : FileError) :
    ([a, some e].filterMap id) ≠ [] := by
  cases a <;> simp [List.filterMap]

/-- If the first entry of the error-pair list is an error, the filtered
error list is non-empty. -/
lemma filterMap_pair_ne_nil_left (e : FileError) (b : Option FileError) :
    ([some e, b].filterMap id) ≠ [] := by
  cases b <;> simp [List.filterMap]

/-- Under the non-empty-validator assumption, every error list produced by
the per-file evaluation is non-empty. -/
lemma evalFile_errors_ne_nil (cfg : Config) (typeMatch : FileData → Bool)
    (v : Option (FileData → Option ValidatorResult)) (f : FileData)
    (errs : List FileError) (hv : validatorNonEmptyAt v f)
    (h : evalFile cfg typeMatch v f = some errs) : errs ≠ [] := by
  unfold evalFile at h
  dsimp only at h
  split at h
  · exact absurd h (by simp)
  · rename_i hcond
    injection h with h
    subst h
    intro hnil
    rcases List.append_eq_nil.mp hnil with ⟨h1, h2⟩
    cases hce : runValidator v f with
    | some r =>
      rw [hce] at h2
      cases r with
      | one e => simp [ValidatorResult.toList] at h2
      | many es =>
        simp only [ValidatorResult.toList] at h2
        exact hv es hce h2
    | none =>
      rw [hce] at hcond
      simp only [Option.isNone_none, Bool.and_true] at hcond
      cases hA : (fileAccepted typeMatch f).1 with
      | false =>
        rcases fileAccepted_snd_of_fst_false typeMatch f hA with ⟨e, he⟩
        exact filterMap_pair_ne_nil_left e _ (he ▸ h1)
      | true =>
        cases hS : (fileMatchSize f cfg.minSize cfg.maxSize).1 with
        | false =>
          rcases fileMatchSize_snd_of_fst_false f cfg.minSize cfg.maxSize hS
            with ⟨e, he⟩
          exact filterMap_pair_ne_nil_right _ e (he ▸ h1)
        | true => exact absurd (by rw [hA, hS]; rfl) hcond

/-- Every rejection produced by the per-file loop carries the error list of
its file's evaluation. -/
lemma mem_partitionFiles_snd (cfg : Config) (typeMatch : FileData → Bool)
    (v : Option (FileData → Option ValidatorResult)) (files : List FileData)
    (r : FileRejection) (h : r ∈ (partitionFiles cfg typeMatch v files).2) :
    evalFile cfg typeMatch v r.file = some r.errors := by
  induction files with
  | nil => simp [partitionFiles] at h
  | cons f fs ih =>
    rw [partitionFiles] at h
    cases hef : evalFile cfg typeMatch v f with
    | none => rw [hef] at h; exact ih h
    | some errs =>
      rw [hef] at h
      rcases List.mem_cons.mp h with h | h
      · subst h; exact hef
      · exact ih h

/-- C2 counterexample: with the default configuration, an always-matching
accept filter and a validator that returns the *empty* error array, the
single dropped file is rejected with an **empty** errors list, refuting the
non-emptiness invariant as stated. -/
theorem setFiles_empty_errors_counterexample :
    ¬ (∀ r ∈ (setFilesPure defaultConfig (fun _ => true)
        (some (fun _ => some (ValidatorResult.many []))) [fileA]).2, r.errors ≠ []) := by
  decide

/-- C2 (amended).  Provided the validator returns `null`, a single error or
a non-empty array of errors on every file, every rejection produced by the
filtering pipeline has a non-empty errors sequence. -/
theorem setFiles_rejection_errors_nonempty (cfg : Config)
    (typeMatch : FileData → Bool)
    (v : Option (FileData → Option ValidatorResult)) (files : List FileData)
    (hv : ∀ f, validatorNonEmptyAt v f) :
    ∀ r ∈ (setFilesPure cfg typeMatch v files).2, r.errors ≠ [] := by
  intro r hr
  rw [setFilesPure, applyMultiplicityGuard] at hr
  split at hr
  · rcases List.mem_append.mp hr with h | h
    · exact evalFile_errors_ne_nil cfg typeMatch v r.file r.errors (hv r.file)
        (mem_partitionFiles_snd cfg typeMatch v files r h)
    · rcases List.mem_map.mp h with ⟨f, _, hf⟩
      rw [← hf]
      simp
  · exact evalFile_errors_ne_nil cfg typeMatch v r.file r.errors (hv r.file)
      (mem_partitionFiles_snd cfg typeMatch v files r hr)

/-- A mixed validator: `null` for files of at most 150 bytes, a single
custom error for larger ones. -/
def mixedValidator : FileData → Option ValidatorResult := fun f =>
  if 150 < f.size then
    some (ValidatorResult.one { code := "custom-too-big",
                                message := "Custom size limit exceeded" })
  else none

/-- C2 witness: under the mixed validator (null on the small sample file,
one error on the large one), the concrete rejection produced for the large
file has a non-empty error list. -/
theorem setFiles_rejection_errors_nonempty_witness :
    ({ file := fileB,
       errors := [{ code := "custom-too-big",
                    message := "Custom size limit exceeded" }] } :
      FileRejection).errors ≠ [] :=
  setFiles_rejection_errors_nonempty defaultConfig (fun _ => true)
    (some mixedValidator) [fileA, fileB]
    (fun f es h => by
      simp only [runValidator, mixedValidator] at h
      split at h <;> simp_all) _ (by decide)

/-- Which of the drop callbacks (`onDrop`, `onDropRejected`,
`onDropAccepted`) the caller supplied. -/
structure DropHandlers where
  onDrop : Bool
  onDropRejected : Bool
  onDropAccepted : Bool
deriving DecidableEq, Repr

/-- Record of the callback invocations performed by the tail of `setFiles`
(`index.tsx` lines 367–377); each field holds the arguments of the call
when it happened.  Events are abstract tokens (`Nat`); the originating
event being `null` is `Option.none`. -/
structure DropCalls where
  onDropCall : Option (List FileData × List FileRejection × Nat)
  onDropRejectedCall : Option (List FileRejection × Nat)
  onDropAcceptedCall : Option (List FileData × Nat)
deriving DecidableEq, Repr

/-- The callback section of `setFiles`:
`if (onDrop && event) onDrop(acc, rej, event)`;
`if (rej.length > 0 && onDropRejected && event) onDropRejected(rej, event)`;
`if (acc.length > 0 && onDropAccepted && event) onDropAccepted(acc, event)`. -/
def setFilesCalls (hs : DropHandlers) (event : Option Nat)
    (acc : List FileData) (rej : List FileRejection) : DropCalls :=
  { onDropCall :=
      if hs.onDrop then event.map (fun e => (acc, rej, e)) else none
    onDropRejectedCall :=
      if rej.length > 0 && hs.onDropRejected && event.isSome then
        event.map (fun e => (rej, e))
      else none
    onDropAcceptedCall :=
      if acc.length > 0 && hs.onDropAccepted && event.isSome then
        event.map (fun e => (acc, e))
      else none }

/-- A full run of `setFiles`: the accepted/rejected partition together with
the callback invocations it performs. -/
def setFilesRun (cfg : Config) (typeMatch : FileData → Bool)
    (v : Option (FileData → Option ValidatorResult)) (hs : DropHandlers)
    (files : List FileData) (event : Option Nat) :
    (List FileData × List FileRejection) × DropCalls :=
  let r := setFilesPure cfg typeMatch v files
  (r, setFilesCalls hs event r.1 r.2)

/-- All three drop handlers supplied. -/
def allDropHandlers : DropHandlers :=
  { onDrop := true, onDropRejected := true, onDropAccepted := true }

/-- No drop callback invoked. -/
def noDropCalls : DropCalls :=
  { onDropCall := none, onDropRejectedCall := none, onDropAcceptedCall := none }

/-- C3.  When the originating event is `null`, none of the three drop
callbacks is invoked; when it is non-null and all three handlers are
supplied, `onDrop(accepted, rejected, event)` is invoked unconditionally,
`onDropRejected(rejected, event)` is invoked iff the rejected list is
non-empty, and `onDropAccepted(accepted, event)` is invoked iff the
accepted list is non-empty. -/
theorem setFiles_callback_policy (cfg : Config) (typeMatch : FileData → Bool)
    (v : Option (FileData → Option ValidatorResult)) (hs : DropHandlers)
    (files : List FileData) (event : Option Nat) :
    (event = none →
      (setFilesRun cfg typeMatch v hs files event).2 = noDropCalls) ∧
    (∀ e, event = some e → hs = allDropHandlers →
      (setFilesRun cfg typeMatch v hs files event).2.onDropCall =
        some ((setFilesPure cfg typeMatch v files).1,
              (setFilesPure cfg typeMatch v files).2, e) ∧
      ((setFilesPure cfg typeMatch v files).2 ≠ [] →
        (setFilesRun cfg typeMatch v hs files event).2.onDropRejectedCall =
          some ((setFilesPure cfg typeMatch v files).2, e)) ∧
      ((setFilesPure cfg typeMatch v files).2 = [] →
        (setFilesRun cfg typeMatch v hs files event).2.onDropRejectedCall =
          none) ∧
      ((setFilesPure cfg typeMatch v files).1 ≠ [] →
        (setFilesRun cfg typeMatch v hs files event).2.onDropAcceptedCall =
          some ((setFilesPure cfg typeMatch v files).1, e)) ∧
      ((setFilesPure cfg typeMatch v files).1 = [] →
        (setFilesRun cfg typeMatch v hs files event).2.onDropAcceptedCall =
          none)) := by
  constructor
  · intro he
    subst he
    simp [setFilesRun, setFilesCalls, noDropCalls]
  · intro e he hhs
    subst he
    subst hhs
    set p := setFilesPure cfg typeMatch v files with hp
    refine ⟨by simp [setFilesRun, setFilesCalls, allDropHandlers, ← hp],
      ?_, ?_, ?_, ?_⟩
    · intro hne
      have : p.2.length > 0 := List.length_pos.mpr hne
      simp [setFilesRun, setFilesCalls, allDropHandlers, ← hp, this]
    · intro hnil
      simp [setFilesRun, setFilesCalls, allDropHandlers, ← hp, hnil]
    · intro hne
      have : p.1.length > 0 := List.length_pos.mpr hne
      simp [setFilesRun, setFilesCalls, allDropHandlers, ← hp, this]
    · intro hnil
      simp [setFilesRun, setFilesCalls, allDropHandlers, ← hp, hnil]

/-- C3 witness: one acceptable file with a non-null event and all handlers
supplied — `onDrop` fires with the full partition, `onDropAccepted` fires,
`onDropRejected` does not. -/
theorem setFiles_callback_policy_witness :
    (setFilesRun defaultConfig (fun _ => true) none allDropHandlers
        [fileA] (some 0)).2.onDropCall = some ([fileA], [], 0) ∧
    (setFilesRun defaultConfig (fun _ => true) none allDropHandlers
        [fileA] (some 0)).2.onDropRejectedCall = none ∧
    (setFilesRun defaultConfig (fun _ => true) none allDropHandlers
        [fileA] (some 0)).2.onDropAcceptedCall = some ([fileA], 0) := by
  have h := (setFiles_callback_policy defaultConfig (fun _ => true) none
    allDropHandlers [fileA] (some 0)).2 0 rfl rfl
  exact ⟨h.1.trans (by decide), h.2.2.1 (by decide),
    (h.2.2.2.1 (by decide)).trans (by decide)⟩

/-- The drag-tracking state owned by the hook: the `dragTargets` list and
the three drag flags, plus counters for the enter/leave callback
invocations.  DOM nodes are abstract tokens (`Nat`). -/
structure DragState where
  dragTargets : List Nat
  isDragActive : Bool
  isDragAccept : Bool
  isDragReject : Bool
  enterCalls : Nat
  leaveCalls : Nat
deriving DecidableEq, Repr

/-- The initial drag state of a fresh hook instance. -/
def initialDragState : DragState :=
  { dragTargets := [], isDragActive := false, isDragAccept := false,
    isDragReject := false, enterCalls := 0, leaveCalls := 0 }

/-- `onDragEnterCb` (`index.tsx` lines 219–244) on a file-carrying event
whose `dataTransfer.files` list is synchronously available: the target is
appended to `dragTargets` (duplicates allowed), the drag flags are set from
the `allFilesAccepted` prediction (abstracted as `a`), and the enter
callback is invoked. -/
def onDragEnterStep (t : Nat) (a : Bool) (s : DragState) : DragState :=
  { s with dragTargets := s.dragTargets ++ [t], isDragActive := true,
           isDragAccept := a, isDragReject := !a,
           enterCalls := s.enterCalls + 1 }

/-- `onDragLeaveCb` (`index.tsx` lines 299–329): a non-file-carrying event
or a target not present in `dragTargets` is ignored; otherwise the list is
filtered down to targets still contained in the root (`contained`), exactly
one occurrence of the event's target is removed, and only when the
resulting list is empty are the drag flags reset and the leave callback
invoked. -/
def onDragLeaveStep (contained : Nat → Bool) (t : Nat) (hasFiles : Bool)
    (s : DragState) : DragState :=
  if !hasFiles then s
  else if !(s.dragTargets.contains t) then s
  else
    let targets := (s.dragTargets.filter contained).erase t
    if targets.length > 0 then { s with dragTargets := targets }
    else
      { s with dragTargets := targets, isDragActive := false,
               isDragAccept := false, isDragReject := false,
               leaveCalls := s.leaveCalls + 1 }

/-- `n` successive file-carrying drag-enter events on node `t`. -/
def iterEnter (t : Nat) (a : Bool) : Nat → DragState → DragState
  | 0, s => s
  | n + 1, s => onDragEnterStep t a (iterEnter t a n s)

/-- `k` successive file-carrying drag-leave events on node `t`. -/
def iterLeave (contained : Nat → Bool) (t : Nat) :
    Nat → DragState → DragState
  | 0, s => s
  | k + 1, s => onDragLeaveStep contained t true (iterLeave contained t k s)

/-- The state after `j` outstanding enters on node `t` (drag active). -/
def activeDragState (t : Nat) (a : Bool) (n j : Nat) : DragState :=
  { dragTargets := List.replicate j t, isDragActive := true,
    isDragAccept := a, isDragReject := !a, enterCalls := n, leaveCalls := 0 }

/-- The state after the zone has been fully left once. -/
def leftDragState (n : Nat) : DragState :=
  { dragTargets := [], isDragActive := false, isDragAccept := false,
    isDragReject := false, enterCalls := n, leaveCalls := 1 }

lemma iterEnter_initial (t : Nat) (a : Bool) (n : Nat) (hn : 1 ≤ n) :
    iterEnter t a n initialDragState = activeDragState t a n n := by
  obtain ⟨m, rfl⟩ : ∃ m, n = m + 1 := ⟨n - 1, by omega⟩
  clear hn
  induction m with
  | zero =>
    simp [iterEnter, onDragEnterStep, initialDragState, activeDragState,
      List.replicate]
  | succ p ih =>
    rw [iterEnter, ih]
    simp [onDragEnterStep, activeDragState, List.replicate_succ']

lemma filter_replicate_of_true (c : Nat → Bool) (t : Nat) (j : Nat)
    (hc : c t = true) : (List.replicate j t).filter c = List.replicate j t := by
  induction j with
  | zero => simp
  | succ m ih => simp [List.replicate_succ, List.filter_cons, hc, ih]

lemma leave_step_on_active (contained : Nat → Bool) (t : Nat) (a : Bool)
    (n j : Nat) (hc : contained t = true) :
    onDragLeaveStep contained t true (activeDragState t a n (j + 1)) =
      if j = 0 then leftDragState n else activeDragState t a n j := by
  rw [onDragLeaveStep]
  have hmem : (activeDragState t a n (j + 1)).dragTargets.contains t = true := by
    simp [activeDragState, List.replicate_succ]
  rw [hmem]
  have herase : (((activeDragState t a n (j + 1)).dragTargets.filter
      contained).erase t) = List.replicate j t := by
    simp only [activeDragState]
    rw [filter_replicate_of_true contained t (j + 1) hc,
      List.replicate_succ, List.erase_cons_head]
  simp only [herase, Bool.not_true, Bool.false_eq_true, if_false,
    List.length_replicate]
  rcases Nat.eq_zero_or_pos j with hj | hj
  · subst hj
    simp [activeDragState, leftDragState]
  · rw [if_pos hj, if_neg (by omega)]
    simp [activeDragState]

lemma iterLeave_on_active (contained : Nat → Bool) (t : Nat) (a : Bool)
    (n : Nat) (hc : contained t = true) (hn : 1 ≤ n) :
    ∀ k, k ≤ n →
      iterLeave contained t k (activeDragState t a n n) =
        if k < n then activeDragState t a n (n - k) else leftDragState n := by
  intro k
  induction k with
  | zero =>
    intro _
    rw [iterLeave, if_pos (show 0 < n by omega), Nat.sub_zero]
  | succ m ih =>
    intro hk
    rw [iterLeave, ih (by omega)]
    have hm : m < n := by omega
    rw [if_pos hm]
    have hrepr : n - m = (n - m - 1) + 1 := by omega
    rw [hrepr, leave_step_on_active contained t a n (n - m - 1) hc]
    rcases Nat.lt_or_ge (m + 1) n with h1 | h1
    · rw [if_neg (by omega), if_pos h1]
      congr 1
    · rw [if_pos (by omega), if_neg (by omega)]

lemma leave_step_not_mem (contained : Nat → Bool) (u : Nat) (s : DragState)
    (h : s.dragTargets.contains u = false) :
    onDragLeaveStep contained u true s = s := by
  rw [onDragLeaveStep, h]
  simp

/-- C4.  Starting idle, `n ≥ 1` file-carrying drag-enters on a node `t`
contained in the root followed by leaves on the same node: after each of
the first `n - 1` leaves the drag-active signal is still `true` and the
leave callback has not fired; after the `n`-th leave the signal is `false`
and the leave callback has fired exactly once; any further (duplicate)
leaves for the same node change nothing; and a leave event whose target
was never entered is ignored entirely. -/
theorem drag_enter_leave_pairing (contained : Nat → Bool) (t : Nat)
    (a : Bool) (n : Nat) (hn : 1 ≤ n) (hc : contained t = true) :
    (∀ k, k < n →
      (iterLeave contained t k
        (iterEnter t a n initialDragState)).isDragActive = true ∧
      (iterLeave contained t k
        (iterEnter t a n initialDragState)).leaveCalls = 0) ∧
    ((iterLeave contained t n
        (iterEnter t a n initialDragState)).isDragActive = false ∧
     (iterLeave contained t n
        (iterEnter t a n initialDragState)).leaveCalls = 1) ∧
    (∀ m, iterLeave contained t (n + m) (iterEnter t a n initialDragState) =
      iterLeave contained t n (iterEnter t a n initialDragState)) ∧
    (∀ (s : DragState) (u : Nat), s.dragTargets.contains u = false →
      onDragLeaveStep contained u true s = s) := by
  rw [iterEnter_initial t a n hn]
  refine ⟨?_, ?_, ?_, ?_⟩
  · intro k hk
    rw [iterLeave_on_active contained t a n hc hn k (by omega), if_pos hk]
    exact ⟨rfl, rfl⟩
  · rw [iterLeave_on_active contained t a n hc hn n (by omega),
      if_neg (by omega)]
    exact ⟨rfl, rfl⟩
  · intro m
    induction m with
    | zero => rfl
    | succ p ih =>
      have : n + (p + 1) = (n + p) + 1 := by omega
      rw [this, iterLeave, ih,
        iterLeave_on_active contained t a n hc hn n (by omega),
        if_neg (by omega)]
      exact leave_step_not_mem contained t (leftDragState n) (by
        simp [leftDragState])
  · exact fun s u h => leave_step_not_mem contained u s h

/-- C4 witness: two enters then two leaves on node `0`; the zone stays
active after the first leave, deactivates on the second, the leave callback
fires once, and a third (duplicate) leave changes nothing. -/
theorem drag_enter_leave_pairing_witness :
    (iterLeave (fun _ => true) 0 1
      (iterEnter 0 true 2 initialDragState)).isDragActive = true ∧
    (iterLeave (fun _ => true) 0 2
      (iterEnter 0 true 2 initialDragState)).isDragActive = false ∧
    (iterLeave (fun _ => true) 0 2
      (iterEnter 0 true 2 initialDragState)).leaveCalls = 1 ∧
    iterLeave (fun _ => true) 0 3 (iterEnter 0 true 2 initialDragState) =
      iterLeave (fun _ => true) 0 2 (iterEnter 0 true 2 initialDragState) := by
  have h := drag_enter_leave_pairing (fun _ => true) 0 true 2 (by decide) rfl
  exact ⟨(h.1 1 (by decide)).1, h.2.1.1, h.2.1.2, by
    have h3 := h.2.2.1 1
    simpa using h3⟩

/-- The hook state touched by the drop handler: the drag state plus the
`acceptedFiles` / `fileRejections` signals. -/
structure DropzoneState where
  drag : DragState
  acceptedFiles : List FileData
  fileRejections : List FileRejection
deriving DecidableEq, Repr

/-- The state updates of `setFiles` (`index.tsx` lines 363–365) together
with its callback invocations: `setAcceptedFiles`, `setFileRejections`,
`setIsDragReject(rejections.length > 0)`. -/
def applySetFiles (cfg : Config) (typeMatch : FileData → Bool)
    (v : Option (FileData → Option ValidatorResult)) (hs : DropHandlers)
    (files : List FileData) (event : Option Nat) (s : DropzoneState) :
    DropzoneState × DropCalls :=
  let r := setFilesPure cfg typeMatch v files
  ({ s with acceptedFiles := r.1, fileRejections := r.2,
            drag := { s.drag with isDragReject := r.2.length > 0 } },
   setFilesCalls hs event r.1 r.2)

/-- The flag resets performed at the end of `onDropCb`:
`setIsDragActive(false); setIsDragAccept(false); setIsDragReject(false)`. -/
def resetDragFlags (d : DragState) : DragState :=
  { d with isDragActive := false, isDragAccept := false,
           isDragReject := false }

/-- A drop (or input-change) event as seen by `onDropCb`:
whether `'dataTransfer' in event`, the synchronous `event.target.files` and
`event.dataTransfer.files` lists, `isEvtWithFiles(event)`, and the abstract
event token handed to callbacks. -/
structure DropEvent where
  isDataTransfer : Bool
  targetFiles : List FileData
  dtFiles : List FileData
  hasFiles : Bool
  id : Nat
deriving DecidableEq, Repr

/-- The synchronous part of `onDropCb` (`index.tsx` lines 380–422).  The
input-change branch (`!('dataTransfer' in event) && target.files?.length`)
clears `dragTargets`, runs `setFiles` with the input's files and resets the
drag flags; otherwise `dragTargets` is cleared, `setFiles` runs with the
synchronous `dataTransfer.files` list when the event carries files and that
list is non-empty, and the drag flags are reset.  The deferred
`getFilesFromEvent` continuation is a later microtask and not part of the
handler's synchronous execution. -/
def onDropCbSync (cfg : Config) (typeMatch : FileData → Bool)
    (v : Option (FileData → Option ValidatorResult)) (hs : DropHandlers)
    (ev : DropEvent) (s : DropzoneState) : DropzoneState × DropCalls :=
  if !ev.isDataTransfer && ev.targetFiles.length > 0 then
    let s1 : DropzoneState := { s with drag := { s.drag with dragTargets := [] } }
    let r := applySetFiles cfg typeMatch v hs ev.targetFiles (some ev.id) s1
    ({ r.1 with drag := resetDragFlags r.1.drag }, r.2)
  else
    let s1 : DropzoneState := { s with drag := { s.drag with dragTargets := [] } }
    let r :=
      if ev.hasFiles && ev.isDataTransfer && ev.dtFiles.length > 0 then
        applySetFiles cfg typeMatch v hs ev.dtFiles (some ev.id) s1
      else (s1, noDropCalls)
    ({ r.1 with drag := resetDragFlags r.1.drag }, r.2)

/-- C5.  After the drop handler's execution, the three drag flags are all
`false`, for every configuration, event shape and starting state —
regardless of whether files were extracted, accepted or rejected. -/
theorem onDrop_resets_drag_flags (cfg : Config) (typeMatch : FileData → Bool)
    (v : Option (FileData → Option ValidatorResult)) (hs : DropHandlers)
    (ev : DropEvent) (s : DropzoneState) :
    (onDropCbSync cfg typeMatch v hs ev s).1.drag.isDragActive = false ∧
    (onDropCbSync cfg typeMatch v hs ev s).1.drag.isDragAccept = false ∧
    (onDropCbSync cfg typeMatch v hs ev s).1.drag.isDragReject = false := by
  rw [onDropCbSync]
  split <;> exact ⟨rfl, rfl, rfl⟩

/-- A handler slot of a prop bundle: absent, the behaviour callback alone,
or (for drag handlers under `noDragEventsBubbling`) a wrapper that stops
propagation before running the callback. -/
inductive Handler where
  | plain
  | stopThenRun
deriving DecidableEq, Repr

/-- The flags consulted by the handler composers. -/
structure HandlerFlags where
  disabled : Bool
  noKeyboard : Bool
  noDrag : Bool
  noDragEventsBubbling : Bool
deriving DecidableEq, Repr

/-- `composeHandler` (`index.tsx` lines 537–539):
`disabled ? undefined : fn`. -/
def composeHandler (c : HandlerFlags) : Option Handler :=
  if c.disabled then none else some .plain

/-- `composeKeyboardHandler` (`index.tsx` lines 541–543):
`noKeyboard ? undefined : composeHandler(fn)`. -/
def composeKeyboardHandler (c : HandlerFlags) : Option Handler :=
  if c.noKeyboard then none else composeHandler c

/-- `composeDragHandler` (`index.tsx` lines 545–556): `undefined` when
`noDrag`; when `noDragEventsBubbling` a stop-propagation wrapper is
returned *without consulting `disabled`*; otherwise `composeHandler`. -/
def composeDragHandler (c : HandlerFlags) : Option Handler :=
  if c.noDrag then none
  else if c.noDragEventsBubbling then some .stopThenRun
  else composeHandler c

/-- The configuration of the C6 failing input: `disabled = true`,
`noDragEventsBubbling = true`, the other flags at their defaults. -/
def disabledBubblingFlags : HandlerFlags :=
  { disabled := true, noKeyboard := false, noDrag := false,
    noDragEventsBubbling := true }

/-- C6 failing evaluation: with `disabled = true` and
`noDragEventsBubbling = true` (and `noDrag = false`), the drag handlers of
the root prop bundle are *present* (the stop-propagation wrapper that runs
the behaviour callback), while the click/keyboard/focus/blur and input
handlers are absent — so a disabled instance still registers drag listeners
that mutate state and invoke callbacks, contradicting the claim. -/
theorem disabled_drag_handler_present :
    composeDragHandler disabledBubblingFlags = some Handler.stopThenRun ∧
    composeHandler disabledBubblingFlags = none ∧
    composeKeyboardHandler disabledBubblingFlags = none := by
  decide

/-- The outcome of the `showOpenFilePicker` promise in `openFileDialog`:
resolved handles, an abort-classified error (`isAbort`), a
security-classified error (`isSecurityError`), or any other error. -/
inductive PickerOutcome where
  | success (files : List FileData)
  | abortError
  | securityError
  | otherError
deriving DecidableEq, Repr

/-- The state touched by `openFileDialog`: the instance-local
`fsAccessApiWorks` strategy flag, the dialog-active signal, whether an
input element is bound, the actions performed on the input, and counters
for the open/cancel/error callbacks. -/
structure DialogState where
  fsAccessApiWorks : Bool
  isFileDialogActive : Bool
  inputBound : Bool
  inputCleared : Bool
  inputClicked : Bool
  openCalls : Nat
  cancelCalls : Nat
  errorCalls : Nat
deriving DecidableEq, Repr

/-- One invocation of `openFileDialog` (`index.tsx` lines 424–476),
with the picker promise's outcome supplied as a parameter.  On the modern
path: mark the dialog active and fire the open callback; on success run the
pipeline and close; on abort fire the cancel callback and close; on a
security error set `fsAccessApiWorks := false` and fall back to clearing
and clicking the bound input, or fire the error callback when no input is
bound; any other error fires the error callback.  On the legacy path, when
an input is bound: mark active, fire the open callback, clear the input's
value and click it. -/
def openFileDialogStep (s : DialogState) (o : PickerOutcome) : DialogState :=
  if s.fsAccessApiWorks then
    let s1 : DialogState :=
      { s with isFileDialogActive := true, openCalls := s.openCalls + 1 }
    match o with
    | .success _ => { s1 with isFileDialogActive := false }
    | .abortError =>
      { s1 with cancelCalls := s1.cancelCalls + 1, isFileDialogActive := false }
    | .securityError =>
      let s2 : DialogState := { s1 with fsAccessApiWorks := false }
      if s2.inputBound then
        { s2 with inputCleared := true, inputClicked := true }
      else { s2 with errorCalls := s2.errorCalls + 1 }
    | .otherError => { s1 with errorCalls := s1.errorCalls + 1 }
  else
    if s.inputBound then
      { s with isFileDialogActive := true, openCalls := s.openCalls + 1,
               inputCleared := true, inputClicked := true }
    else s

/-- A sequence of `openFileDialog` invocations with their outcomes. -/
def runDialog (s : DialogState) : List PickerOutcome → DialogState
  | [] => s
  | o :: os => runDialog (openFileDialogStep s o) os

/-- Number of invocations in a run at which the modern-picker flag is
downgraded (flips from `true` to `false`). -/
def downgradeCount (s : DialogState) : List PickerOutcome → Nat
  | [] => 0
  | o :: os =>
    (if s.fsAccessApiWorks && !(openFileDialogStep s o).fsAccessApiWorks
     then 1 else 0) + downgradeCount (openFileDialogStep s o) os

lemma openFileDialogStep_works_false (s : DialogState) (o : PickerOutcome)
    (h : s.fsAccessApiWorks = false) :
    (openFileDialogStep s o).fsAccessApiWorks = false := by
  rw [openFileDialogStep, if_neg (by simp [h])]
  split <;> exact h

lemma openFileDialogStep_works_true (s : DialogState) (o : PickerOutcome)
    (h : s.fsAccessApiWorks = true) :
    (openFileDialogStep s o).fsAccessApiWorks =
      (if o = .securityError then false else true) := by
  rw [openFileDialogStep, if_pos h]
  cases o with
  | success files => simpa using h
  | abortError => simpa using h
  | securityError => dsimp only; split <;> rfl
  | otherError => simpa using h

lemma downgradeCount_of_works_false (s : DialogState)
    (h : s.fsAccessApiWorks = false) (os : List PickerOutcome) :
    downgradeCount s os = 0 := by
  induction os generalizing s with
  | nil => rfl
  | cons o os ih =>
    rw [downgradeCount, h]
    simp only [Bool.false_and, Bool.false_eq_true, if_false, Nat.zero_add]
    exact ih _ (openFileDialogStep_works_false s o h)

/-- C7.  The modern-picker flag is downgraded exactly upon a
security-classified picker failure, never re-enabled afterwards, and at
most once over any sequence of `openFileDialog` invocations; on the
security failure the bound input is cleared and clicked, and when no input
is bound the error callback is invoked instead. -/
theorem fsAccessApi_downgrade_once (s : DialogState) (o : PickerOutcome) :
    (s.fsAccessApiWorks = false →
      (openFileDialogStep s o).fsAccessApiWorks = false) ∧
    (s.fsAccessApiWorks = true →
      ((openFileDialogStep s o).fsAccessApiWorks = false ↔
        o = .securityError)) ∧
    (s.fsAccessApiWorks = true → o = .securityError → s.inputBound = true →
      (openFileDialogStep s o).inputCleared = true ∧
      (openFileDialogStep s o).inputClicked = true) ∧
    (s.fsAccessApiWorks = true → o = .securityError → s.inputBound = false →
      (openFileDialogStep s o).errorCalls = s.errorCalls + 1) ∧
    (∀ os : List PickerOutcome, downgradeCount s os ≤ 1) := by
  refine ⟨fun h => openFileDialogStep_works_false s o h, ?_, ?_, ?_, ?_⟩
  · intro h
    rw [openFileDialogStep_works_true s o h]
    split
    · rename_i he
      exact ⟨fun _ => he, fun _ => rfl⟩
    · rename_i he
      exact ⟨fun hf => absurd hf (by simp), fun hh => absurd hh he⟩
  · intro h he hb
    subst he
    rw [openFileDialogStep, if_pos h]
    dsimp only
    rw [if_pos (by simpa using hb)]
    exact ⟨rfl, rfl⟩
  · intro h he hb
    subst he
    rw [openFileDialogStep, if_pos h]
    dsimp only
    rw [if_neg (by simp [hb])]
  · intro os
    induction os generalizing s with
    | nil => exact Nat.zero_le 1
    | cons p ps ih =>
      rw [downgradeCount]
      cases hw : (openFileDialogStep s p).fsAccessApiWorks with
      | true =>
        simp only [hw, Bool.not_true, Bool.and_false, Bool.false_eq_true, if_false, Nat.zero_add]
        exact ih (openFileDialogStep s p)
      | false =>
        have hrest : downgradeCount (openFileDialogStep s p) ps = 0 :=
          downgradeCount_of_works_false _ hw ps
        rw [hrest]
        split <;> omega

/-- C7 witness: a fresh instance with a bound input hit by a security
error — the flag drops, the input is cleared and clicked, and a run with
two security outcomes still downgrades only once. -/
theorem fsAccessApi_downgrade_once_witness :
    ((openFileDialogStep
        { fsAccessApiWorks := true, isFileDialogActive := false,
          inputBound := true, inputCleared := false, inputClicked := false,
          openCalls := 0, cancelCalls := 0, errorCalls := 0 }
        PickerOutcome.securityError).fsAccessApiWorks = false) ∧
    ((openFileDialogStep
        { fsAccessApiWorks := true, isFileDialogActive := false,
          inputBound := true, inputCleared := false, inputClicked := false,
          openCalls := 0, cancelCalls := 0, errorCalls := 0 }
        PickerOutcome.securityError).inputCleared = true) ∧
    (downgradeCount
        { fsAccessApiWorks := true, isFileDialogActive := false,
          inputBound := true, inputCleared := false, inputClicked := false,
          openCalls := 0, cancelCalls := 0, errorCalls := 0 }
        [PickerOutcome.securityError, PickerOutcome.securityError] ≤ 1) := by
  have h := fsAccessApi_downgrade_once
    { fsAccessApiWorks := true, isFileDialogActive := false,
      inputBound := true, inputCleared := false, inputClicked := false,
      openCalls := 0, cancelCalls := 0, errorCalls := 0 }
    PickerOutcome.securityError
  exact ⟨(h.2.1 rfl).mpr rfl, (h.2.2.1 rfl rfl rfl).1,
    h.2.2.2.2 [PickerOutcome.securityError, PickerOutcome.securityError]⟩

/-- The environment observed by `onWindowFocus` (`index.tsx` lines
162–174) and its 300ms-delayed timeout body: the strategy flag and the
dialog-active signal *at focus time*, whether an input is bound, whether
`inputRef.files` is empty *when the timeout fires*, and the dialog-active
signal at that later moment. -/
structure FocusEnv where
  fsAccessApiWorks : Bool
  activeAtFocus : Bool
  inputBound : Bool
  inputFilesEmpty : Bool
  activeAtTimeout : Bool
deriving DecidableEq, Repr

/-- `onWindowFocus` followed by its timeout body: returns the dialog-active
value after the timeout ran and the number of cancel-callback invocations.
The guard `!fsAccessApiWorks && isFileDialogActive()` is evaluated at focus
time; the timeout body checks only `inputRef` and `files?.length`. -/
def onWindowFocusResult (e : FocusEnv) : Bool × Nat :=
  if !e.fsAccessApiWorks && e.activeAtFocus then
    if e.inputBound then
      if e.inputFilesEmpty then (false, 1) else (e.activeAtTimeout, 0)
    else (e.activeAtTimeout, 0)
  else (e.activeAtTimeout, 0)

/-- C8 counterexample: the window regains focus on the legacy path with the
dialog marked active, but by the time the 300ms timeout fires the dialog is
no longer marked active; the input is empty, and the code nevertheless
fires the cancel callback — the claim says neither action happens in that
case. -/
theorem onWindowFocus_cancel_despite_inactive :
    (onWindowFocusResult
      { fsAccessApiWorks := false, activeAtFocus := true, inputBound := true,
        inputFilesEmpty := true, activeAtTimeout := false }).2 = 1 ∧
    ({ fsAccessApiWorks := false, activeAtFocus := true, inputBound := true,
       inputFilesEmpty := true, activeAtTimeout := false :
       FocusEnv }).activeAtTimeout = false := by
  decide

/-- C8 (amended).  When the window regains focus on the legacy path with
the dialog marked active *at focus time*, then 300ms later: if an input is
bound and holds no files, the dialog-active flag is set to `false` and the
cancel callback fires (regardless of the dialog-active value at that
moment); if no input is bound or the input holds files, neither happens. -/
theorem onWindowFocus_heuristic (e : FocusEnv)
    (hw : e.fsAccessApiWorks = false) (ha : e.activeAtFocus = true) :
    (e.inputBound = true → e.inputFilesEmpty = true →
      onWindowFocusResult e = (false, 1)) ∧
    (e.inputBound = false ∨ e.inputFilesEmpty = false →
      onWindowFocusResult e = (e.activeAtTimeout, 0)) := by
  rw [onWindowFocusResult, if_pos (by simp [hw, ha])]
  constructor
  · intro hb hf
    rw [if_pos hb, if_pos hf]
  · rintro (hb | hf)
    · rw [if_neg (by simp [hb])]
    · cases hb : e.inputBound with
      | false => rw [if_neg (by simp)]
      | true => rw [if_pos rfl, if_neg (by simp [hf])]

/-- C8 witness: legacy path, dialog active at focus and at the timeout,
bound empty input — the flag is cleared and the cancel callback fires. -/
theorem onWindowFocus_heuristic_witness :
    onWindowFocusResult
      { fsAccessApiWorks := false, activeAtFocus := true, inputBound := true,
        inputFilesEmpty := true, activeAtTimeout := true } = (false, 1) :=
  (onWindowFocus_heuristic
    { fsAccessApiWorks := false, activeAtFocus := true, inputBound := true,
      inputFilesEmpty := true, activeAtTimeout := true } rfl rfl).1 rfl rfl

/-- The dialog-related fields of the hook's result object (`index.tsx`
lines 684–697): the source passes `isFileDialogActive()` — the signal's
value read once when the hook body runs — while the drag booleans are
passed as the signal accessors themselves.  Signals are modelled as
time-indexed values and `creation` is the instant the hook body runs. -/
structure HookResultView where
  isFileDialogActive : Bool
  isDragActive : Nat → Bool

/-- Construction of the result object's dialog/drag fields, translated
from the return statement of `useDropzone`. -/
def mkHookResult (sigFileDialogActive : Nat → Bool)
    (sigDragActive : Nat → Bool) (creation : Nat) : HookResultView :=
  { isFileDialogActive := sigFileDialogActive creation,
    isDragActive := sigDragActive }

/-- C9 failing evaluation: take a dialog-active signal that is `false` at
hook creation (time 0) and becomes `true` at time 1 (the orchestrator
marking the dialog active).  A caller reading the exposed field at time 1
still observes `false`, the snapshot taken at creation — the field is not
reactive. -/
theorem isFileDialogActive_snapshot_not_reactive :
    ((fun tm => decide (1 ≤ tm)) 1 = true) ∧
    (mkHookResult (fun tm => decide (1 ≤ tm)) (fun _ => false)
      0).isFileDialogActive = false := by
  constructor
  · decide
  · rfl

/-- `onFocusCb` (`index.tsx` lines 500–506): a focus event whose
propagation was stopped (`event.cancelBubble`) leaves the focus signal
unchanged; otherwise the signal is set to `true`. -/
def onFocusCb (cancelBubble : Bool) (sig : Bool) : Bool :=
  if cancelBubble then sig else true

/-- `onBlurCb` (`index.tsx` lines 508–514). -/
def onBlurCb (cancelBubble : Bool) (sig : Bool) : Bool :=
  if cancelBubble then sig else false

/-- The `isFocused` accessor of the result object (`index.tsx` line 685):
`() => isFocused() && !local.disabled`. -/
def isFocusedAccessor (sig : Bool) (disabled : Bool) : Bool :=
  sig && !disabled

/-- C10.  The exposed `isFocused` accessor returns `false` whenever
`disabled` is true, whatever the internal focus signal holds; it returns
`true` only when the signal is set and `disabled` is false; and the focus
handler sets the signal exactly when propagation was not stopped. -/
theorem isFocused_accessor_policy (sig disabled cancelBubble : Bool) :
    (disabled = true → isFocusedAccessor sig disabled = false) ∧
    (isFocusedAccessor sig disabled = true →
      sig = true ∧ disabled = false) ∧
    (onFocusCb false sig = true) ∧
    (onFocusCb true sig = sig) ∧
    (cancelBubble = false → onFocusCb cancelBubble sig = true) := by
  revert sig disabled cancelBubble
  decide

/-- C10 witness: with the focus signal set by prior focus events but
`disabled = true`, the accessor reads `false`. -/
theorem isFocused_accessor_policy_witness :
    isFocusedAccessor true true = false ∧
    isFocusedAccessor true false = true :=
  ⟨(isFocused_accessor_policy true true false).1 rfl, rfl⟩

end SolidDropzone
